import Mathlib

/-!
# Verification of the deploy-static-frontend health/status path

Shallow embedding of the health-reporting logic of this repository:
* the React status dashboard (`App.tsx`): its pure classification helpers
  (`getStatusColor`, `formatSyncTime`, `getSyncStatusColor`) and the state
  transition performed by one `fetchHealthData` cycle;
* the shell health reporter (`scripts/generate-health.sh`) run under `set -e`,
  modelled as a function from the outcomes of its external commands to the
  emitted `health-detailed` document (`none` = the script aborted before
  writing the file);
* the Lambda ALB handler (`lambda-backend/src/index.ts`): routing, CORS
  headers and error mapping.
-/

namespace DeployStaticFrontend

/-! ## Generic string helpers (embeddings of JavaScript string primitives) -/

/-- Embedding of `charsLeadWith s p` : the character list `s` has `p` as a leading segment.
Used to embed JavaScript `String.prototype.startsWith`. -/
def charsLeadWith : List Char → List Char → Bool
  | _, [] => true
  | [], _ :: _ => false
  | c :: cs, p :: ps => c == p && charsLeadWith cs ps

/-- Embedding of `charsContain s p` : `p` occurs contiguously somewhere in `s`.
Embeds JavaScript `String.prototype.includes`. -/
def charsContain : List Char → List Char → Bool
  | [], pat => charsLeadWith [] pat
  | c :: cs, pat => charsLeadWith (c :: cs) pat || charsContain cs pat

/-- JavaScript `s.startsWith(p)`. -/
def strStarts (s p : String) : Bool := charsLeadWith s.data p.data

/-- JavaScript `s.endsWith(p)`. -/
def strEnds (s p : String) : Bool := charsLeadWith s.data.reverse p.data.reverse

/-- JavaScript `s.includes(p)`. -/
def strIncludes (s p : String) : Bool := charsContain s.data p.data

/-- JavaScript `s.split(sep)` for a single-character separator:
splitting the empty string yields one empty field, and separators
delimit (possibly empty) fields. -/
def splitChar (sep : Char) : List Char → List (List Char)
  | [] => [[]]
  | c :: cs =>
    if c == sep then [] :: splitChar sep cs
    else
      match splitChar sep cs with
      | [] => [[c]]
      | h :: t => (c :: h) :: t

/-- JavaScript `s.split(sep)[i]`.  The only call site in the source
(`split` at index 3 in the Lambda handler) is guarded by a `startsWith`
test on the decision route, so the index is in range there;
out-of-range access is mapped to the empty string. -/
def jsSplitIdx (s : String) (sep : Char) (i : Nat) : String :=
  String.mk ((splitChar sep s.data).getD i [])

/-- JavaScript `String.prototype.toLowerCase` on one character, on the ASCII
range (the only range the status vocabulary of this code base uses):
`A`–`Z` maps to `a`–`z`, every other character is unchanged. -/
def jsCharToLower (c : Char) : Char :=
  if 65 ≤ c.toNat ∧ c.toNat ≤ 90 then Char.ofNat (c.toNat + 32) else c

/-- JavaScript `s.toLowerCase()` (ASCII range). -/
def jsToLower (s : String) : String := String.mk (s.data.map jsCharToLower)

theorem toNat_ofNat_of_valid {n : Nat} (h : n.isValidChar) :
    (Char.ofNat n).toNat = n := by
  simp [Char.ofNat, dif_pos h, Char.ofNatAux, Char.toNat, UInt32.toNat,
    BitVec.toNat_ofNatLt]

theorem jsCharToLower_toNat_not_upper (c : Char) :
    ¬(65 ≤ (jsCharToLower c).toNat ∧ (jsCharToLower c).toNat ≤ 90) := by
  unfold jsCharToLower
  split
  · next h =>
    have hv : (c.toNat + 32).isValidChar := Or.inl (by omega)
    rw [toNat_ofNat_of_valid hv]
    omega
  · next h => exact h

theorem jsCharToLower_idem (c : Char) :
    jsCharToLower (jsCharToLower c) = jsCharToLower c := by
  have h := jsCharToLower_toNat_not_upper c
  unfold jsCharToLower
  rw [if_neg]
  intro hc
  exact h (by simpa [jsCharToLower] using hc)

theorem map_jsCharToLower_idem (l : List Char) :
    (l.map jsCharToLower).map jsCharToLower = l.map jsCharToLower := by
  induction l with
  | nil => rfl
  | cons c t ih => simp [List.map, jsCharToLower_idem, ih]

theorem jsToLower_idem (s : String) : jsToLower (jsToLower s) = jsToLower s := by
  unfold jsToLower
  exact congrArg String.mk (map_jsCharToLower_idem s.data)

/-! ## Dashboard pure classification helpers (App.tsx lines 143-178)

The `seconds_since_last_sync` value flowing into these helpers is the integer
produced by shell arithmetic in `generate-health.sh` (or JSON `null`), so the
JavaScript `number | null | undefined` domain is embedded as `Option Int`,
`none` standing for both `null` and `undefined` (the code treats them alike).
-/

/-- Embedding of `getStatusColor` (App.tsx lines 143-150).  The `switch` on
`status.toLowerCase()` is embedded as the equivalent equality chain. -/
def getStatusColor (status : String) : String :=
  if jsToLower status = "healthy" then "#28a745"
  else if jsToLower status = "degraded" then "#ffc107"
  else if jsToLower status = "unhealthy" then "#dc3545"
  else "#6c757d"

/-- Embedding of `formatSyncTime` (App.tsx lines 152-159).  `Math.floor` of a division of
a (possibly negative) integer is `Int.fdiv`; the template literal
`` `${seconds} seconds ago` `` renders the number with `toString`. -/
def formatSyncTime (seconds : Option Int) : String :=
  match seconds with
  | none => "Unknown"
  | some s =>
    if s < 60 then toString s ++ " seconds ago"
    else if s < 120 then "1 minute ago"
    else if s < 3600 then toString (Int.fdiv s 60) ++ " minutes ago"
    else if s < 7200 then "1 hour ago"
    else toString (Int.fdiv s 3600) ++ " hours ago"

/-- Embedding of `getSyncStatusColor` (App.tsx lines 161-166). -/
def getSyncStatusColor (seconds : Option Int) : String :=
  match seconds with
  | none => "#6c757d"
  | some s =>
    if s < 300 then "#28a745"
    else if s < 600 then "#ffc107"
    else "#dc3545"

/-! ## Dashboard fetch cycle (App.tsx lines 82-141)

`fetchHealthData` is an async function whose external interactions are the
two HTTP fetches (and the body/JSON reads on their responses).  One run of it
is embedded as a pure state transition parameterised by the outcome of those
interactions (`FetchOutcome`) and by the wall-clock reading
`new Date().toISOString()` used when a snapshot is synthesised. -/

/-- The `instance` object of the `HealthData` interface of the dashboard
(App.tsx lines 7-13).  The field is named `inst` because `instance` is a
Lean keyword. -/
structure InstanceIdentity where
  id : String
  type : String
  availability_zone : String
  region : String
  private_ip : String
deriving DecidableEq

/-- Embedding of `services.openresty` (App.tsx lines 15-20). -/
structure OpenrestyService where
  status : String
  responding : Bool
  version : Option String
  uptime_seconds : Option Int
deriving DecidableEq

/-- Embedding of `services.lambda` (App.tsx lines 21-24). -/
structure LambdaService where
  status : String
  responding : Bool
deriving DecidableEq

/-- Embedding of `services.s3_sync` (App.tsx lines 25-29). -/
structure S3SyncService where
  status : String
  last_sync : String
  seconds_since_last_sync : Option Int
deriving DecidableEq

/-- Embedding of `services` (App.tsx lines 14-30). -/
structure HealthServices where
  openresty : Option OpenrestyService
  lambda : Option LambdaService
  s3_sync : Option S3SyncService
deriving DecidableEq

/-- Embedding of `system` (App.tsx lines 31-36).  `memory_used_percent` is a JSON number
with one decimal digit (produced by `awk printf %.1f`), embedded as `Rat`. -/
structure SystemMetrics where
  load_average : String
  memory_used_percent : Rat
  disk_used : String
  uptime_seconds : Int
deriving DecidableEq

/-- Embedding of `environment` (App.tsx lines 37-41). -/
structure EnvironmentInfo where
  environment : String
  project : String
  s3_bucket : String
deriving DecidableEq

/-- The `HealthData` interface of the dashboard (App.tsx lines 4-42). -/
structure HealthData where
  status : String
  timestamp : String
  inst : InstanceIdentity
  services : Option HealthServices
  system : Option SystemMetrics
  environment : Option EnvironmentInfo
deriving DecidableEq

/-- The view state touched by `fetchHealthData`: the `healthData` and
`loading` pieces of the component state (App.tsx lines 52 and 55). -/
structure DashboardState where
  healthData : Option HealthData
  loading : Bool
deriving DecidableEq

/-- The possible outcomes of the external interactions of one
`fetchHealthData` run (App.tsx lines 82-122):
* `okJson d` — `/health-detailed` returned `response.ok` and its body parsed
  as JSON value `d`;
* `okJsonThrows` — `/health-detailed` returned `response.ok` but
  `response.json()` threw (lands in the `catch` block);
* `notOkSimpleOk body` — `/health-detailed` returned non-success, the
  `/health` fallback returned success with text `body`;
* `notOkSimpleNotOk` — both requests returned non-success HTTP statuses;
* `notOkSimpleThrows` — `/health-detailed` returned non-success, the
  fallback fetch (or its `text()`) threw;
* `fetchThrows` — the `/health-detailed` fetch itself threw (network
  error). -/
inductive FetchOutcome where
  | okJson (d : HealthData)
  | okJsonThrows
  | notOkSimpleOk (body : String)
  | notOkSimpleNotOk
  | notOkSimpleThrows
  | fetchThrows
deriving DecidableEq

/-- The snapshot synthesised in the `catch` block (App.tsx lines 108-118). -/
def errorSnapshot (now : String) : HealthData :=
  { status := "error"
    timestamp := now
    inst := { id := "error", type := "error", availability_zone := "error",
              region := "error", private_ip := "error" }
    services := none, system := none, environment := none }

/-- The minimal snapshot synthesised in the fallback branch
(App.tsx lines 93-103). -/
def fallbackSnapshot (now body : String) : HealthData :=
  { status := if strIncludes body "healthy" then "healthy" else "unknown"
    timestamp := now
    inst := { id := "unknown", type := "unknown", availability_zone := "unknown",
              region := "unknown", private_ip := "unknown" }
    services := none, system := none, environment := none }

/-- One run of `fetchHealthData` (App.tsx lines 82-122) as a state
transition.  Every branch ends in the `finally` block, which clears the
loading flag; the `notOkSimpleNotOk` branch falls through both `if`s without
calling `setHealthData`. -/
def fetchHealthData (now : String) (outcome : FetchOutcome)
    (st : DashboardState) : DashboardState :=
  match outcome with
  | .okJson d => { st with healthData := some d, loading := false }
  | .okJsonThrows => { st with healthData := some (errorSnapshot now), loading := false }
  | .notOkSimpleOk body =>
      { st with healthData := some (fallbackSnapshot now body), loading := false }
  | .notOkSimpleNotOk => { st with loading := false }
  | .notOkSimpleThrows => { st with healthData := some (errorSnapshot now), loading := false }
  | .fetchThrows => { st with healthData := some (errorSnapshot now), loading := false }

/-- The synchronous part of `refreshData` (App.tsx lines 124-128): it sets
the loading flag before re-running `fetchHealthData`. -/
def refreshStart (st : DashboardState) : DashboardState :=
  { st with loading := true }

/-! ## Health reporter (`scripts/generate-health.sh`)

The script runs under `set -e` (line 2).  Every *unguarded* command
substitution that fails therefore terminates the script before the
`health-detailed` heredoc (lines 65-102) is written.  The script is embedded
as a function from the outcomes of its external commands (a `ScriptEnv`) to
`Option HealthDetailed`: `none` means the script aborted without emitting a
document.  Commands guarded by `if`, by `|| echo …` or by `|| true` cannot
abort and are modelled by their (defaulted) results; the plain `date`/
`uptime`/`free`/`df`/`cat /proc/uptime` pipelines never fail and are
modelled as total readings. -/

/-- Outcomes of the external commands run by `generate-health.sh`.
An `Option` field with value `none` models the command exiting non-zero
(for the unguarded `curl` substitutions this aborts the script under
`set -e`; for the `|| …`-guarded ones the fallback value applies). -/
structure ScriptEnv where
  /-- line 7: IMDSv2 token `curl` (unguarded). -/
  curlToken : Option String
  /-- line 10: instance-id metadata `curl` (unguarded). -/
  curlInstanceId : Option String
  /-- line 11: availability-zone metadata `curl` (unguarded). -/
  curlAz : Option String
  /-- line 12: instance-type metadata `curl` (unguarded). -/
  curlInstanceType : Option String
  /-- line 13: region metadata `curl` (unguarded). -/
  curlRegion : Option String
  /-- line 14: local-ipv4 metadata `curl` (unguarded). -/
  curlPrivateIp : Option String
  /-- line 23: `systemctl is-active openresty` succeeded (used as an `if`
  condition, so failure cannot abort). -/
  systemctlIsActive : Bool
  /-- line 26: `systemctl show openresty -p MainPID --value`, guarded by
  `|| echo ""`. -/
  systemctlMainPid : Option String
  /-- line 27: `nginx -v` version extraction, guarded by `|| echo "unknown"`. -/
  nginxVersionOut : Option String
  /-- line 31: `ps -o lstart= | … date +%s` start-time pipeline, guarded by
  `|| echo "0"`. -/
  psStartEpoch : Option Nat
  /-- line 33: `date +%s` while computing the OpenResty uptime. -/
  currentTimeOpenresty : Nat
  /-- lines 45-46: `none` = `/var/www/hitl/.last-sync` absent
  (the `-f` test fails); `some c` = the file exists with content `c`. -/
  markerFile : Option String
  /-- line 50: `date -d "$LAST_SYNC" +%s`, guarded by `|| echo "0"`;
  `none` = the marker content did not parse as a timestamp. -/
  markerEpoch : Option Nat
  /-- line 51: `date +%s` while computing the sync age. -/
  currentEpochSync : Nat
  /-- line 59: load-average extraction. -/
  loadAvg : String
  /-- line 60: memory percentage from `free | awk`. -/
  memoryUsed : String
  /-- line 61: disk usage from `df | awk`. -/
  diskUsed : String
  /-- line 62: uptime seconds from `/proc/uptime`. -/
  uptimeSeconds : String
  /-- line 68: `date -u +"%Y-%m-%dT%H:%M:%SZ"` inside the heredoc. -/
  dateUtcNow : String
  /-- line 97: the `ENVIRONMENT` environment variable (`none` = unset). -/
  envEnvironment : Option String
  /-- line 98: the `PROJECT_NAME` environment variable. -/
  envProject : Option String
  /-- line 99: the `S3_BUCKET` environment variable. -/
  envS3Bucket : Option String
deriving DecidableEq

/-- Shell `${VAR:-default}`: the default applies when the variable is unset
*or* empty. -/
def shDefault (v : Option String) (d : String) : String :=
  match v with
  | none => d
  | some s => if s = "" then d else s

/-- The `health-detailed` JSON document written by the heredoc
(`generate-health.sh` lines 65-102), with one field per emitted JSON key.
`seconds_since_last_sync = none` renders as the JSON literal `null`
(`${LAST_SYNC_SECONDS_AGO:-null}`, line 87).  The raw textual metrics
(`load_average`, `memory_used_percent`, `disk_used`, `uptime_seconds`) are
kept as the substituted strings. -/
structure HealthDetailed where
  status : String
  timestamp : String
  instance_id : String
  instance_type : String
  availability_zone : String
  region : String
  private_ip : String
  openresty_status : String
  openresty_responding : Bool
  openresty_version : String
  openresty_pid : String
  openresty_uptime_seconds : Int
  s3_sync_status : String
  s3_last_sync : String
  seconds_since_last_sync : Option Int
  load_average : String
  memory_used_percent : String
  disk_used : String
  uptime_seconds : String
  env_environment : String
  env_project : String
  env_s3_bucket : String
deriving DecidableEq

/-- One run of `generate-health.sh` (lines 1-102).  Returns the emitted
`health-detailed` document, or `none` when `set -e` terminated the script
at a failing unguarded `curl` substitution (lines 7-14) before the heredoc
ran. -/
def generateHealthDetailed (env : ScriptEnv) : Option HealthDetailed := do
  let _token ← env.curlToken
  let instanceId ← env.curlInstanceId
  let az ← env.curlAz
  let instanceType ← env.curlInstanceType
  let region ← env.curlRegion
  let privateIp ← env.curlPrivateIp
  -- OpenResty status check (lines 16-37); variables start empty/inactive.
  let openrestyStatus := if env.systemctlIsActive then "active" else "inactive"
  let openrestyResponding := env.systemctlIsActive
  let openrestyPid := if env.systemctlIsActive then (env.systemctlMainPid.getD "") else ""
  let openrestyVersion := if env.systemctlIsActive then (env.nginxVersionOut.getD "unknown") else ""
  -- lines 30-36: uptime only when the PID is non-empty, non-zero and the
  -- start time resolved to a non-zero epoch; otherwise OPENRESTY_UPTIME
  -- stays empty and the heredoc default `:-0` applies (line 82).
  let openrestyUptime : Option Int :=
    if env.systemctlIsActive ∧ openrestyPid ≠ "" ∧ openrestyPid ≠ "0"
        ∧ env.psStartEpoch.getD 0 ≠ 0 then
      some ((env.currentTimeOpenresty : Int) - (env.psStartEpoch.getD 0 : Int))
    else none
  -- S3 sync status check (lines 39-56).
  let lastSync := env.markerFile.getD ""
  let s3SyncStatus :=
    if env.markerFile.isSome ∧ lastSync ≠ "" then "active" else "unknown"
  -- lines 50-54: seconds only when the marker content parsed to a non-zero
  -- epoch; otherwise LAST_SYNC_SECONDS_AGO stays empty and the heredoc
  -- default `:-null` applies (line 87).
  let secondsAgo : Option Int :=
    if env.markerFile.isSome ∧ lastSync ≠ "" ∧ env.markerEpoch.getD 0 ≠ 0 then
      some ((env.currentEpochSync : Int) - (env.markerEpoch.getD 0 : Int))
    else none
  pure
    { status := "healthy"  -- line 67: a fixed literal in the heredoc
      timestamp := env.dateUtcNow
      instance_id := shDefault (some instanceId) "unknown"
      instance_type := shDefault (some instanceType) "unknown"
      availability_zone := shDefault (some az) "unknown"
      region := shDefault (some region) "unknown"
      private_ip := shDefault (some privateIp) "unknown"
      openresty_status := openrestyStatus
      openresty_responding := openrestyResponding
      openresty_version := openrestyVersion
      openresty_pid := openrestyPid
      openresty_uptime_seconds := openrestyUptime.getD 0
      s3_sync_status := s3SyncStatus
      s3_last_sync := shDefault (some lastSync) "unknown"
      seconds_since_last_sync := secondsAgo
      load_average := env.loadAvg
      memory_used_percent := shDefault (some env.memoryUsed) "0"
      disk_used := env.diskUsed
      uptime_seconds := env.uptimeSeconds
      env_environment := shDefault env.envEnvironment "dev"
      env_project := shDefault env.envProject "hitl"
      env_s3_bucket := shDefault env.envS3Bucket "unknown" }

/-! ## Lambda ALB handler (`lambda-backend/src/index.ts`)

The external interactions of the handler (`Date`, `Math.random`,
`process.env`-derived server info, the possibility of a runtime exception
inside the `try` block) are supplied by a `LambdaEnv`; `JSON.parse` of the
decision body is supplied as a function argument (`Except String`, the error
carrying `error.message`).  Response bodies are kept as the structured
object literals the source builds (their `JSON.stringify` serialisation is
not modelled). -/

/-- The `instance` object of `ServerInfo` (types.ts lines 1-9);
`inst` because `instance` is a Lean keyword. -/
structure LambdaInstance where
  id : String
  type : String
  availability_zone : String
  region : String
deriving DecidableEq

/-- Embedding of `ServerInfo` (types.ts). -/
structure ServerInfo where
  inst : LambdaInstance
  timestamp : String
deriving DecidableEq

/-- Embedding of `Application` (types.ts); `status` is one of the literals
`pending`/`approved`/`rejected`. -/
structure Application where
  id : String
  type : String
  applicant_name : String
  submission_date : String
  status : String
deriving DecidableEq

/-- Embedding of `DecisionRequest` (types.ts); only the `decision` field feeds the
response (the others are merely logged). -/
structure DecisionRequest where
  decision : String
deriving DecidableEq

/-- Embedding of `sampleApplications` (index.ts lines 25-68). -/
def sampleApplications : List Application :=
  [ { id := "APP-2025-001234", type := "Business License Application",
      applicant_name := "Acme Corporation",
      submission_date := "2025-01-25T14:30:00Z", status := "pending" },
    { id := "APP-2025-001235", type := "Grant Proposal",
      applicant_name := "Tech Innovations LLC",
      submission_date := "2025-01-25T16:45:00Z", status := "pending" },
    { id := "APP-2025-001236", type := "Loan Application",
      applicant_name := "Small Business Partners",
      submission_date := "2025-01-24T09:15:00Z", status := "approved" },
    { id := "APP-2025-001237", type := "Permit Request",
      applicant_name := "Construction Co.",
      submission_date := "2025-01-24T11:20:00Z", status := "rejected" },
    { id := "APP-2025-001238", type := "Research Grant",
      applicant_name := "University Research Lab",
      submission_date := "2025-01-23T13:10:00Z", status := "approved" },
    { id := "APP-2025-001239", type := "Export License",
      applicant_name := "Global Trade Inc.",
      submission_date := "2025-01-23T15:25:00Z", status := "pending" } ]

/-- The structured response bodies built by the source (the object literals
passed to `createResponse`; `JSON.stringify` is not modelled). -/
inductive RespBody where
  /-- The empty string passed by `handleOptions` (line 177). -/
  | emptyStr
  /-- the `HealthResponse` object (lines 94-105). -/
  | healthResp (status timestamp : String) (inst : LambdaInstance)
      (lambdaStatus : String) (lambdaResponding : Bool) (version : String)
  /-- the metrics `ApiResponse` (lines 118-129). -/
  | metricsResp (applications_processed pending_review approved_today
      rejected_today : Nat) (server_info : ServerInfo) (timestamp : String)
  /-- the applications `ApiResponse` (lines 138-142). -/
  | appsResp (data : List Application) (server_info : ServerInfo)
      (timestamp : String)
  /-- the decision acknowledgement (lines 160-164). -/
  | decisionResp (message : String) (server_info : ServerInfo)
      (timestamp : String)
  /-- Embedding of `{error, message}` objects: the 400 body (lines 168-171) and the 405
  body (lines 236-239). -/
  | errorResp (error message : String)
  /-- the 404 body with `available_endpoints` (lines 223-233). -/
  | notFoundResp (error message : String) (available_endpoints : List String)
  /-- the 500 body with `request_id` (lines 244-248). -/
  | serverErrorResp (error message request_id : String)
deriving DecidableEq

/-- Embedding of `ALBResult` (as built by `createResponse`, index.ts lines 79-89). -/
structure ALBResult where
  statusCode : Nat
  headers : List (String × String)
  body : RespBody
  isBase64Encoded : Bool
deriving DecidableEq

/-- Embedding of `ALBEvent`: the fields the handler reads (`path`, `httpMethod`,
`body`). -/
structure ALBEvent where
  path : String
  httpMethod : String
  body : Option String
deriving DecidableEq

/-- Embedding of `corsHeaders` (index.ts lines 71-76). -/
def corsHeaders : List (String × String) :=
  [ ("Access-Control-Allow-Origin", "*"),
    ("Access-Control-Allow-Headers", "Content-Type,Authorization"),
    ("Access-Control-Allow-Methods", "GET,POST,OPTIONS"),
    ("Content-Type", "application/json") ]

/-- Embedding of `createResponse` (index.ts lines 79-89): the spread
`{...corsHeaders, ...headers}` is embedded as list append (the only extra
header used, `Access-Control-Max-Age`, collides with no CORS key). -/
def createResponse (statusCode : Nat) (body : RespBody)
    (headers : List (String × String)) : ALBResult :=
  { statusCode := statusCode
    headers := corsHeaders ++ headers
    body := body
    isBase64Encoded := false }

/-- External interactions of one handler invocation. -/
structure LambdaEnv where
  /-- the `getServerInfo()` result (built from `process.env`, `Date.now`
  and `Math.random`, lines 5-22). -/
  serverInfo : ServerInfo
  /-- Embedding of `new Date().toISOString()`. -/
  nowIso : String
  /-- the three `Math.floor(Math.random() * k)` draws in `handleMetrics`
  (lines 119-122), as arbitrary naturals reduced mod their bound. -/
  randA : Nat
  randB : Nat
  randC : Nat
  /-- Embedding of `some e` models a runtime exception with message `e` thrown by some
  statement inside the `try` block of the handler (lines 189-239); `none` means
  no statement threw. -/
  crash : Option String
deriving DecidableEq

/-- Embedding of `handleHealth` (index.ts lines 92-108). -/
def handleHealth (env : LambdaEnv) : ALBResult :=
  createResponse 200
    (.healthResp "healthy" env.nowIso env.serverInfo.inst "active" true "1.0") []

/-- Embedding of `handleMetrics` (index.ts lines 111-132). -/
def handleMetrics (env : LambdaEnv) : ALBResult :=
  createResponse 200
    (.metricsResp (127 + env.randA % 10)
      ((sampleApplications.filter (fun a => a.status = "pending")).length)
      (15 + env.randB % 5) (3 + env.randC % 3) env.serverInfo env.nowIso) []

/-- Embedding of `handleApplications` (index.ts lines 135-145). -/
def handleApplications (env : LambdaEnv) : ALBResult :=
  createResponse 200 (.appsResp sampleApplications env.serverInfo env.nowIso) []

/-- Embedding of `handleDecision` (index.ts lines 148-173); `parse` stands for
`JSON.parse` plus the `decision` field read, its `Except` error carrying
`error.message`. -/
def handleDecision (parse : String → Except String DecisionRequest)
    (env : LambdaEnv) (applicationId body : String) : ALBResult :=
  match parse body with
  | .ok d =>
      createResponse 200
        (.decisionResp
          ("Decision " ++ d.decision ++ " recorded for application " ++ applicationId)
          env.serverInfo env.nowIso) []
  | .error e => createResponse 400 (.errorResp "Invalid request body" e) []

/-- Embedding of `handleOptions` (index.ts lines 176-180). -/
def handleOptions : ALBResult :=
  createResponse 204 .emptyStr [("Access-Control-Max-Age", "86400")]

/-- The endpoint list in the 404 body (index.ts lines 226-232). -/
def availableEndpoints : List String :=
  [ "GET /health", "GET /health-detailed", "GET /api/metrics",
    "GET /api/applications", "POST /api/applications/{id}/decision" ]

/-- The `case` test for the decision route (index.ts line 215). -/
def isDecisionPath (p : String) : Bool :=
  strStarts p "/api/applications/" && strEnds p "/decision"

/-- The 405 response reached when a `case` matches but the method check
fails and control falls out of the `switch` (index.ts lines 236-239). -/
def methodNotAllowed (event : ALBEvent) : ALBResult :=
  createResponse 405
    (.errorResp "Method Not Allowed"
      ("Method " ++ event.httpMethod ++ " not allowed for path " ++ event.path)) []

/-- JavaScript `b || d` for an optional string (index.ts line 218:
`event.body` or-defaulted to `"{}"`): `||` substitutes the default on
every falsy value,
so a missing body (`null`/`undefined`) *and* the empty string are both
replaced by `d`. -/
def jsOrElse (b : Option String) (d : String) : String :=
  match b with
  | none => d
  | some s => if s = "" then d else s

/-- The main `handler` (index.ts lines 183-250).  `requestId` is
`context.awsRequestId`.  The `switch (true)` is embedded as the equivalent
ordered test chain; a `crash` in the environment models a runtime exception
inside the `try` block, answered by the `catch` (lines 241-249). -/
def handler (parse : String → Except String DecisionRequest)
    (env : LambdaEnv) (requestId : String) (event : ALBEvent) : ALBResult :=
  match env.crash with
  | some e => createResponse 500 (.serverErrorResp "Internal Server Error" e requestId) []
  | none =>
    if event.httpMethod = "OPTIONS" then handleOptions
    else if event.path = "/health" ∨ event.path = "/health-detailed" then
      if event.httpMethod = "GET" then handleHealth env else methodNotAllowed event
    else if event.path = "/api/metrics" then
      if event.httpMethod = "GET" then handleMetrics env else methodNotAllowed event
    else if event.path = "/api/applications" then
      if event.httpMethod = "GET" then handleApplications env else methodNotAllowed event
    else if isDecisionPath event.path then
      if event.httpMethod = "POST" then
        handleDecision parse env (jsSplitIdx event.path '/' 3) (jsOrElse event.body "{}")
      else methodNotAllowed event
    else
      createResponse 404
        (.notFoundResp "Not Found" ("Path " ++ event.path ++ " not found")
          availableEndpoints) []

/-! ## Concrete environments used by counterexamples and witnesses -/

/-- A fully healthy run of `generate-health.sh`: every external command
succeeds, OpenResty active for an hour, marker synced 45 seconds ago. -/
def baseScriptEnv : ScriptEnv :=
  { curlToken := some "tok"
    curlInstanceId := some "i-0123456789abcdef0"
    curlAz := some "us-east-1a"
    curlInstanceType := some "t3.micro"
    curlRegion := some "us-east-1"
    curlPrivateIp := some "10.0.1.23"
    systemctlIsActive := true
    systemctlMainPid := some "1234"
    nginxVersionOut := some "1.25.3"
    psStartEpoch := some 1700000000
    currentTimeOpenresty := 1700003600
    markerFile := some "2023-11-14T22:13:20Z"
    markerEpoch := some 1700000000
    currentEpochSync := 1700000045
    loadAvg := "0.00, 0.01, 0.05"
    memoryUsed := "37.5"
    diskUsed := "42%"
    uptimeSeconds := "3600"
    dateUtcNow := "2023-11-14T22:14:05Z"
    envEnvironment := some "dev"
    envProject := some "hitl"
    envS3Bucket := some "bucket" }

/-- The document `baseScriptEnv` produces. -/
def baseSnap : HealthDetailed :=
  { status := "healthy"
    timestamp := "2023-11-14T22:14:05Z"
    instance_id := "i-0123456789abcdef0"
    instance_type := "t3.micro"
    availability_zone := "us-east-1a"
    region := "us-east-1"
    private_ip := "10.0.1.23"
    openresty_status := "active"
    openresty_responding := true
    openresty_version := "1.25.3"
    openresty_pid := "1234"
    openresty_uptime_seconds := 3600
    s3_sync_status := "active"
    s3_last_sync := "2023-11-14T22:13:20Z"
    seconds_since_last_sync := some 45
    load_average := "0.00, 0.01, 0.05"
    memory_used_percent := "37.5"
    disk_used := "42%"
    uptime_seconds := "3600"
    env_environment := "dev"
    env_project := "hitl"
    env_s3_bucket := "bucket" }

/-- Sanity evaluation: the healthy base environment emits `baseSnap`. -/
theorem generateHealthDetailed_base :
    generateHealthDetailed baseScriptEnv = some baseSnap := rfl

/-- The IMDS metadata service is unreachable: the token `curl` on line 7
exits non-zero. -/
def envImdsDown : ScriptEnv := { baseScriptEnv with curlToken := none }

/-- OpenResty inactive and the content sync deeply stale (999999 s). -/
def envC4 : ScriptEnv :=
  { baseScriptEnv with systemctlIsActive := false,
                       currentEpochSync := 1700999999 }

/-- The sync marker file exists but its content does not parse as a
timestamp (`date -d` fails, falling back to epoch `0`). -/
def envC5 : ScriptEnv :=
  { baseScriptEnv with markerFile := some "not-a-timestamp",
                       markerEpoch := none }

/-- The sync marker file is absent. -/
def envC5absent : ScriptEnv := { baseScriptEnv with markerFile := none }

/-- The document `envC5absent` produces. -/
def absentSnap : HealthDetailed :=
  { baseSnap with s3_sync_status := "unknown",
                  s3_last_sync := "unknown",
                  seconds_since_last_sync := none }

/-! ## C3 — sync-age freshness classification -/

/-- C3, refuting instance: the claim says green holds *only if* `0 ≤ s`,
but `getSyncStatusColor` classifies the negative age `-1` green (the code
has no lower bound on the `< 300` test). -/
theorem C3_counterexample :
    getSyncStatusColor (some (-1)) = "#28a745" ∧ ¬((0 : Int) ≤ -1) := by
  exact ⟨rfl, by decide⟩

/-- C3 (amended): for a non-null age `s`, the classification is green iff
`s < 300` (with no lower bound, so negative ages are green), yellow iff
`300 ≤ s < 600`, red iff `s ≥ 600`; it is gray exactly on null/undefined.
For ages `s ≥ 0` this coincides with the claim. -/
theorem C3_syncColor_classification :
    (∀ n : Int, getSyncStatusColor (some n) = "#28a745" ↔ n < 300) ∧
    (∀ n : Int, getSyncStatusColor (some n) = "#ffc107" ↔ 300 ≤ n ∧ n < 600) ∧
    (∀ n : Int, getSyncStatusColor (some n) = "#dc3545" ↔ 600 ≤ n) ∧
    (∀ s : Option Int, getSyncStatusColor s = "#6c757d" ↔ s = none) := by
  refine ⟨?_, ?_, ?_, ?_⟩
  · intro n
    simp only [getSyncStatusColor]
    split_ifs with h1 h2
    · exact iff_of_true rfl h1
    · exact iff_of_false (by decide) h1
    · exact iff_of_false (by decide) h1
  · intro n
    simp only [getSyncStatusColor]
    split_ifs with h1 h2
    · exact iff_of_false (by decide) (by omega)
    · exact iff_of_true rfl (by omega)
    · exact iff_of_false (by decide) (by omega)
  · intro n
    simp only [getSyncStatusColor]
    split_ifs with h1 h2
    · exact iff_of_false (by decide) (by omega)
    · exact iff_of_false (by decide) (by omega)
    · exact iff_of_true rfl (by omega)
  · intro s
    cases s with
    | none => exact iff_of_true rfl rfl
    | some n =>
      simp only [getSyncStatusColor]
      split_ifs <;>
        exact iff_of_false (by decide) (by simp)

/-! ## C6 — node-status color classification -/

/-- C6: `getStatusColor` is case-insensitive (it only looks at
`toLowerCase` of its input, which is idempotent) and maps healthy to green,
degraded to yellow, unhealthy to red and everything else to gray. -/
theorem C6_statusColor (s : String) :
    getStatusColor s = getStatusColor (jsToLower s) ∧
    (getStatusColor s = "#28a745" ↔ jsToLower s = "healthy") ∧
    (getStatusColor s = "#ffc107" ↔ jsToLower s = "degraded") ∧
    (getStatusColor s = "#dc3545" ↔ jsToLower s = "unhealthy") ∧
    (jsToLower s ≠ "healthy" → jsToLower s ≠ "degraded" →
      jsToLower s ≠ "unhealthy" → getStatusColor s = "#6c757d") := by
  have hid := jsToLower_idem s
  refine ⟨?_, ?_, ?_, ?_, ?_⟩
  · simp only [getStatusColor, hid]
  · simp only [getStatusColor]
    split_ifs with h1 h2 h3
    · exact iff_of_true rfl h1
    · exact iff_of_false (by decide) h1
    · exact iff_of_false (by decide) h1
    · exact iff_of_false (by decide) h1
  · simp only [getStatusColor]
    split_ifs with h1 h2 h3
    · exact iff_of_false (by decide) (h1 ▸ (by decide))
    · exact iff_of_true rfl h2
    · exact iff_of_false (by decide) h2
    · exact iff_of_false (by decide) h2
  · simp only [getStatusColor]
    split_ifs with h1 h2 h3
    · exact iff_of_false (by decide) (h1 ▸ (by decide))
    · exact iff_of_false (by decide) (h2 ▸ (by decide))
    · exact iff_of_true rfl h3
    · exact iff_of_false (by decide) h3
  · intro n1 n2 n3
    simp only [getStatusColor, if_neg n1, if_neg n2, if_neg n3]

/-- C6 witness at concrete inputs: `"HEALTHY"` classifies like
`"healthy"`, and an unrecognised status is gray. -/
theorem C6_statusColor_witness :
    getStatusColor "HEALTHY" = getStatusColor "healthy" ∧
    getStatusColor "rebooting" = "#6c757d" := by
  constructor
  · have h := (C6_statusColor "HEALTHY").1
    rw [h, show jsToLower "HEALTHY" = "healthy" from by decide]
  · exact (C6_statusColor "rebooting").2.2.2.2 (by decide) (by decide) (by decide)

/-! ## C7 — human-readable sync phrase -/

/-- C7: `formatSyncTime` is `"Unknown"` exactly on null/undefined, renders
45 as `"45 seconds ago"`, and every zero or negative age falls into the
freshest (`< 60` seconds) phrase bucket and is classified green (fresh) by
`getSyncStatusColor` — the code has no separate "just now" string. -/
theorem C7_formatSyncTime :
    formatSyncTime none = "Unknown" ∧
    formatSyncTime (some 45) = "45 seconds ago" ∧
    ∀ s : Int, s ≤ 0 →
      formatSyncTime (some s) = toString s ++ " seconds ago" ∧
      getSyncStatusColor (some s) = "#28a745" := by
  refine ⟨rfl, by decide, ?_⟩
  intro s hs
  constructor
  · simp only [formatSyncTime]
    rw [if_pos (by omega : s < 60)]
  · simp only [getSyncStatusColor]
    rw [if_pos (by omega : s < 300)]

/-- C7 witness: age zero is rendered in the freshest bucket and colored
green. -/
theorem C7_formatSyncTime_witness :
    formatSyncTime (some 0) = "0 seconds ago" ∧
    getSyncStatusColor (some 0) = "#28a745" :=
  C7_formatSyncTime.2.2 0 (by decide)

/-! ## C1 — outcome of a dashboard fetch cycle -/

/-- C1, refuting instance: when `/health-detailed` and the `/health`
fallback both return non-success HTTP statuses (without throwing), the
cycle completes without calling `setHealthData`, so a dashboard that had no
snapshot still has none — contradicting "after the cycle completes the view
state holds a non-null HealthSnapshot" and "status becomes error". -/
theorem C1_counterexample :
    (fetchHealthData "2025-01-01T00:00:00Z" FetchOutcome.notOkSimpleNotOk
      { healthData := none, loading := true }).healthData = none := rfl

/-- C1 (amended): every cycle outcome *except* the both-HTTP-non-success
one leaves a non-null snapshot; a thrown fetch yields the synthesised error
snapshot, whose status and five identity fields are all `"error"`; the
both-non-success outcome leaves the previous snapshot (null included)
unchanged. -/
theorem C1_fetch_cycle (now : String) (outcome : FetchOutcome)
    (st : DashboardState) :
    (outcome ≠ FetchOutcome.notOkSimpleNotOk →
      ((fetchHealthData now outcome st).healthData).isSome = true) ∧
    (fetchHealthData now FetchOutcome.fetchThrows st).healthData
      = some (errorSnapshot now) ∧
    (errorSnapshot now).status = "error" ∧
    (errorSnapshot now).inst.id = "error" ∧
    (errorSnapshot now).inst.type = "error" ∧
    (errorSnapshot now).inst.availability_zone = "error" ∧
    (errorSnapshot now).inst.region = "error" ∧
    (errorSnapshot now).inst.private_ip = "error" ∧
    (fetchHealthData now FetchOutcome.notOkSimpleNotOk st).healthData
      = st.healthData := by
  refine ⟨?_, rfl, rfl, rfl, rfl, rfl, rfl, rfl, rfl⟩
  intro h
  cases outcome <;> first | rfl | exact absurd rfl h

/-- C1 witness: a total network failure leaves a (non-null) snapshot. -/
theorem C1_fetch_cycle_witness :
    ((fetchHealthData "t" FetchOutcome.fetchThrows
      { healthData := none, loading := true }).healthData).isSome = true :=
  (C1_fetch_cycle "t" FetchOutcome.fetchThrows
    { healthData := none, loading := true }).1 (by decide)

/-! ## C8 — the fallback snapshot synthesised from plaintext `/health` -/

/-- C8: when `/health-detailed` returns non-success and the plaintext
fallback succeeds with `body`, the stored snapshot has status `"healthy"`
iff `body` contains the token `"healthy"` (JavaScript `includes`),
otherwise `"unknown"`, and all five identity fields are `"unknown"`. -/
theorem C8_fallback (now body : String) (st : DashboardState) :
    ((fetchHealthData now (FetchOutcome.notOkSimpleOk body) st).healthData).isSome
      = true ∧
    ∀ hd, (fetchHealthData now (FetchOutcome.notOkSimpleOk body) st).healthData
        = some hd →
      (hd.status = "healthy" ↔ strIncludes body "healthy" = true) ∧
      (strIncludes body "healthy" = false → hd.status = "unknown") ∧
      hd.inst.id = "unknown" ∧ hd.inst.type = "unknown" ∧
      hd.inst.availability_zone = "unknown" ∧ hd.inst.region = "unknown" ∧
      hd.inst.private_ip = "unknown" := by
  refine ⟨rfl, ?_⟩
  intro hd hhd
  have h2 : some (fallbackSnapshot now body) = some hd := hhd
  have h3 := Option.some.inj h2
  subst h3
  refine ⟨?_, ?_, rfl, rfl, rfl, rfl, rfl⟩
  · cases hb : strIncludes body "healthy" with
    | true =>
      have : (fallbackSnapshot now body).status = "healthy" := by
        simp [fallbackSnapshot, hb]
      rw [this]
      exact iff_of_true rfl rfl
    | false =>
      have : (fallbackSnapshot now body).status = "unknown" := by
        simp [fallbackSnapshot, hb]
      rw [this]
      exact iff_of_false (by decide) (by simp [hb])
  · intro hb
    simp [fallbackSnapshot, hb]

/-- C8 witness: a body containing the token yields a healthy snapshot. -/
theorem C8_fallback_witness :
    ((fetchHealthData "t" (FetchOutcome.notOkSimpleOk "node is healthy")
      { healthData := none, loading := true }).healthData).isSome = true ∧
    (fallbackSnapshot "t" "node is healthy").status = "healthy" := by
  have h := C8_fallback "t" "node is healthy" { healthData := none, loading := true }
  exact ⟨h.1, (h.2 (fallbackSnapshot "t" "node is healthy") rfl).1.mpr (by decide)⟩

/-! ## C9 — every fetch cycle clears the loading flag -/

/-- C9: every outcome of a `fetchHealthData` run ends through the `finally`
block and sets `loading := false` — also when the cycle was started by
`refreshData` (which sets `loading := true` first); no path leaves the
dashboard stuck in Loading. -/
theorem C9_loading_terminates (now : String) (outcome : FetchOutcome)
    (st : DashboardState) :
    (fetchHealthData now outcome st).loading = false ∧
    (fetchHealthData now outcome (refreshStart st)).loading = false := by
  cases outcome <;> exact ⟨rfl, rfl⟩

/-! ## Inversion of the health reporter run -/

/-- Any document actually emitted by `generate-health.sh` has the fixed
top-level status `"healthy"`, the OpenResty check result in
`services.openresty.status`, and the sync fields computed from the marker
file alone. -/
theorem generateHealthDetailed_inversion (env : ScriptEnv)
    (snap : HealthDetailed) (h : generateHealthDetailed env = some snap) :
    snap.status = "healthy" ∧
    snap.openresty_status = (if env.systemctlIsActive then "active" else "inactive") ∧
    snap.s3_sync_status =
      (if env.markerFile.isSome ∧ env.markerFile.getD "" ≠ "" then "active"
       else "unknown") ∧
    snap.seconds_since_last_sync =
      (if env.markerFile.isSome ∧ env.markerFile.getD "" ≠ ""
          ∧ env.markerEpoch.getD 0 ≠ 0 then
        some ((env.currentEpochSync : Int) - (env.markerEpoch.getD 0 : Int))
       else none) := by
  obtain ⟨tok, iid, azv, ity, reg, pip, act, pid, ver, pse, cto, mf, me, ces,
    la, mu, du, us, dn, ee, ep, eb⟩ := env
  cases tok <;> cases iid <;> cases azv <;> cases ity <;> cases reg <;>
    cases pip <;> simp only [generateHealthDetailed, Option.bind_eq_bind,
      Option.none_bind, Option.some_bind, Option.pure_def, Option.some.injEq,
      reduceCtorEq] at h
  subst h
  exact ⟨rfl, rfl, rfl, rfl⟩

/-! ## C2 — sub-check failure vs. snapshot emission -/

/-- C2: contrary to the claim, a failing metadata sub-check does abort
snapshot emission.  With the IMDS token `curl` (line 7) exiting non-zero,
`set -e` terminates `generate-health.sh` before the heredoc, and no
`health-detailed` document is written at all — the `${VAR:-unknown}`
defaults in the heredoc (lines 70-74) are never reached.  (They apply only
when a `curl` *succeeds* with empty output.) -/
theorem C2_set_e_aborts :
    envImdsDown.curlToken = none ∧
    generateHealthDetailed envImdsDown = none ∧
    generateHealthDetailed { baseScriptEnv with curlInstanceId := none } = none :=
  ⟨rfl, rfl, rfl⟩

/-! ## C4 — top-level status vs. web-server check and sync age -/

/-- C4, refuting instance: with OpenResty inactive and the sync 999999 s
stale, the emitted document still has top-level status `"healthy"` — the
status does *not* equal the web-server check result (`"inactive"`, held in
`services.openresty.status`); it is a fixed heredoc literal. -/
theorem C4_counterexample :
    (generateHealthDetailed envC4).map HealthDetailed.status = some "healthy" ∧
    (generateHealthDetailed envC4).map HealthDetailed.openresty_status
      = some "inactive" ∧
    (generateHealthDetailed envC4).map HealthDetailed.seconds_since_last_sync
      = some (some 999999) ∧
    "healthy" ≠ "inactive" :=
  ⟨rfl, rfl, rfl, by decide⟩

/-- C4 (amended): the top-level `status` of every emitted document is the
constant `"healthy"`, independent of both the web-server check and the
sync-marker age; the web-server check result is surfaced only in
`services.openresty.status` and sync freshness only in the `s3_sync`
record. -/
theorem C4_status_constant (env : ScriptEnv) (snap : HealthDetailed)
    (h : generateHealthDetailed env = some snap) :
    snap.status = "healthy" ∧
    snap.openresty_status
      = (if env.systemctlIsActive then "active" else "inactive") := by
  have hinv := generateHealthDetailed_inversion env snap h
  exact ⟨hinv.1, hinv.2.1⟩

/-- C4 witness: the healthy base run. -/
theorem C4_status_constant_witness :
    baseSnap.status = "healthy" ∧ baseSnap.openresty_status = "active" :=
  C4_status_constant baseScriptEnv baseSnap rfl

/-! ## C5 — absent or unparseable sync marker -/

/-- C5, refuting instance: a marker file whose content does not parse as a
timestamp yields sync status `"active"` (the status is set to `"active"` as
soon as the file is non-empty, before the `date -d` parse), not the
`"unknown"` the claim states; the seconds field is still `null`.  The run
does emit a document (no failure). -/
theorem C5_counterexample :
    (generateHealthDetailed envC5).map HealthDetailed.s3_sync_status
      = some "active" ∧
    (generateHealthDetailed envC5).map HealthDetailed.seconds_since_last_sync
      = some none ∧
    envC5.markerEpoch = none :=
  ⟨rfl, rfl, rfl⟩

/-- C5 (amended): in every emitted document, an absent (or empty) marker
file gives sync status `"unknown"` with `seconds_since_last_sync = null`;
a non-empty marker whose content does not parse gives status `"active"`
with `seconds_since_last_sync = null`; no marker state prevents
emission. -/
theorem C5_marker_handling (env : ScriptEnv) (snap : HealthDetailed)
    (h : generateHealthDetailed env = some snap) :
    (env.markerFile = none →
      snap.s3_sync_status = "unknown" ∧ snap.seconds_since_last_sync = none) ∧
    (env.markerFile = some "" →
      snap.s3_sync_status = "unknown" ∧ snap.seconds_since_last_sync = none) ∧
    (∀ c, env.markerFile = some c → c ≠ "" → env.markerEpoch = none →
      snap.s3_sync_status = "active" ∧ snap.seconds_since_last_sync = none) := by
  have hinv := generateHealthDetailed_inversion env snap h
  refine ⟨?_, ?_, ?_⟩
  · intro hmf
    rw [hinv.2.2.1, hinv.2.2.2]
    simp [hmf]
  · intro hmf
    rw [hinv.2.2.1, hinv.2.2.2]
    simp [hmf]
  · intro c hc hne hme
    rw [hinv.2.2.1, hinv.2.2.2]
    simp [hc, hne, hme]

/-- C5 witness: the marker file is absent, the document still comes out,
reporting `"unknown"` and a `null` age. -/
theorem C5_marker_handling_witness :
    absentSnap.s3_sync_status = "unknown" ∧
    absentSnap.seconds_since_last_sync = none :=
  (C5_marker_handling envC5absent absentSnap rfl).1 rfl

/-! ## C10 — Lambda handler routing and error mapping -/

/-- Every result of the handler comes from `createResponse` with one of the
six status codes used in the source. -/
theorem handler_shape (parse : String → Except String DecisionRequest)
    (env : LambdaEnv) (requestId : String) (event : ALBEvent) :
    ∃ c b hs, handler parse env requestId event = createResponse c b hs ∧
      c ∈ [200, 204, 400, 404, 405, 500] := by
  unfold handler
  cases env.crash with
  | some e => exact ⟨500, _, _, rfl, by decide⟩
  | none =>
    by_cases h1 : event.httpMethod = "OPTIONS"
    · rw [if_pos h1]
      exact ⟨204, _, _, rfl, by decide⟩
    rw [if_neg h1]
    by_cases h2 : event.path = "/health" ∨ event.path = "/health-detailed"
    · rw [if_pos h2]
      by_cases hm : event.httpMethod = "GET"
      · rw [if_pos hm]; exact ⟨200, _, _, rfl, by decide⟩
      · rw [if_neg hm]; exact ⟨405, _, _, rfl, by decide⟩
    rw [if_neg h2]
    by_cases h3 : event.path = "/api/metrics"
    · rw [if_pos h3]
      by_cases hm : event.httpMethod = "GET"
      · rw [if_pos hm]; exact ⟨200, _, _, rfl, by decide⟩
      · rw [if_neg hm]; exact ⟨405, _, _, rfl, by decide⟩
    rw [if_neg h3]
    by_cases h4 : event.path = "/api/applications"
    · rw [if_pos h4]
      by_cases hm : event.httpMethod = "GET"
      · rw [if_pos hm]; exact ⟨200, _, _, rfl, by decide⟩
      · rw [if_neg hm]; exact ⟨405, _, _, rfl, by decide⟩
    rw [if_neg h4]
    by_cases h5 : isDecisionPath event.path = true
    · rw [if_pos h5]
      by_cases hm : event.httpMethod = "POST"
      · rw [if_pos hm]
        unfold handleDecision
        cases parse (jsOrElse event.body "{}") with
        | ok d => exact ⟨200, _, _, rfl, by decide⟩
        | error e => exact ⟨400, _, _, rfl, by decide⟩
      · rw [if_neg hm]; exact ⟨405, _, _, rfl, by decide⟩
    rw [if_neg h5]
    exact ⟨404, _, _, rfl, by decide⟩

/-- A path matching the decision route differs from the four literal
routes. -/
theorem isDecisionPath_ne_literals (p : String)
    (h : isDecisionPath p = true) :
    p ≠ "/health" ∧ p ≠ "/health-detailed" ∧ p ≠ "/api/metrics" ∧
    p ≠ "/api/applications" := by
  refine ⟨?_, ?_, ?_, ?_⟩ <;> rintro rfl <;> revert h <;> decide

/-- C10 (amended): every response of the Lambda handler carries the CORS
headers and one of the status codes {200, 204, 400, 404, 405, 500};
OPTIONS gets 204; an unknown path gets the 404 body listing the five
available endpoints; a known path with a disallowed method gets 405; a
decision POST feeds `handleDecision` its *effective* body — the request
body with `||` substituting `"{}"` when it is absent **or empty** — and
gets 400 exactly when that effective body fails to parse as JSON (the
handler is a pure function of its inputs — no state is changed); and a
thrown error is answered with a 500 response instead of propagating.
In particular an empty raw body is replaced by `"{}"` before parsing, so
it does not reach the 400 branch (see the counterexample). -/
theorem C10_handler_contract (parse : String → Except String DecisionRequest)
    (env : LambdaEnv) (requestId : String) (event : ALBEvent) :
    (∀ p, p ∈ corsHeaders → p ∈ (handler parse env requestId event).headers) ∧
    (handler parse env requestId event).statusCode ∈ [200, 204, 400, 404, 405, 500] ∧
    (env.crash = none → event.httpMethod = "OPTIONS" →
      handler parse env requestId event = handleOptions ∧
      (handler parse env requestId event).statusCode = 204) ∧
    (env.crash = none → event.httpMethod ≠ "OPTIONS" →
      event.path ≠ "/health" → event.path ≠ "/health-detailed" →
      event.path ≠ "/api/metrics" → event.path ≠ "/api/applications" →
      isDecisionPath event.path = false →
      handler parse env requestId event =
        createResponse 404
          (.notFoundResp "Not Found" ("Path " ++ event.path ++ " not found")
            availableEndpoints) []) ∧
    (env.crash = none → event.httpMethod ≠ "OPTIONS" →
      ((event.path = "/health" ∨ event.path = "/health-detailed" ∨
        event.path = "/api/metrics" ∨ event.path = "/api/applications") ∧
          event.httpMethod ≠ "GET" ∨
        isDecisionPath event.path = true ∧ event.httpMethod ≠ "POST") →
      (handler parse env requestId event).statusCode = 405) ∧
    (env.crash = none → isDecisionPath event.path = true →
      event.httpMethod = "POST" →
      handler parse env requestId event =
        handleDecision parse env (jsSplitIdx event.path '/' 3)
          (jsOrElse event.body "{}")) ∧
    (∀ msg, env.crash = none → isDecisionPath event.path = true →
      event.httpMethod = "POST" →
      parse (jsOrElse event.body "{}") = Except.error msg →
      handler parse env requestId event =
        createResponse 400 (.errorResp "Invalid request body" msg) []) ∧
    (∀ e, env.crash = some e →
      handler parse env requestId event =
        createResponse 500
          (.serverErrorResp "Internal Server Error" e requestId) []) := by
  refine ⟨?_, ?_, ?_, ?_, ?_, ?_, ?_, ?_⟩
  · intro p hp
    obtain ⟨c, b, hs, heq, -⟩ := handler_shape parse env requestId event
    rw [heq]
    exact List.mem_append.mpr (Or.inl hp)
  · obtain ⟨c, b, hs, heq, hc⟩ := handler_shape parse env requestId event
    rw [heq]
    exact hc
  · intro hc hm
    refine ⟨?_, ?_⟩ <;> simp [handler, hc, hm, handleOptions, createResponse]
  · intro hc hm h1 h2 h3 h4 h5
    simp [handler, hc, hm, h1, h2, h3, h4, h5]
  · intro hc hm hroute
    rcases hroute with ⟨hp, hg⟩ | ⟨hd, hpst⟩
    · rcases hp with h | h | h | h <;>
        simp [handler, hc, hm, hg, h, methodNotAllowed, createResponse]
    · obtain ⟨hne1, hne2, hne3, hne4⟩ := isDecisionPath_ne_literals _ hd
      simp [handler, hc, hm, hne1, hne2, hne3, hne4, hd, hpst,
        methodNotAllowed, createResponse]
  · intro hc hd hpost
    obtain ⟨hne1, hne2, hne3, hne4⟩ := isDecisionPath_ne_literals _ hd
    have hm : event.httpMethod ≠ "OPTIONS" := by rw [hpost]; decide
    simp [handler, hc, hm, hne1, hne2, hne3, hne4, hd, hpost]
  · intro msg hc hd hpost hparse
    obtain ⟨hne1, hne2, hne3, hne4⟩ := isDecisionPath_ne_literals _ hd
    have hm : event.httpMethod ≠ "OPTIONS" := by rw [hpost]; decide
    simp [handler, hc, hm, hne1, hne2, hne3, hne4, hd, hpost, handleDecision,
      hparse]
  · intro e hc
    simp [handler, hc]

/-- A concrete stand-in for `JSON.parse` (plus the `decision` field read),
faithful on the inputs the refuting instance reaches: `"{}"` parses — its
`decision` field is JavaScript `undefined`, which the template literal of
the acknowledgement message renders as the string `"undefined"` — while
the empty string (and any other non-JSON text) throws. -/
def jsonParse0 : String → Except String DecisionRequest :=
  fun s =>
    if s = "{}" then Except.ok { decision := "undefined" }
    else Except.error "Unexpected end of JSON input"

/-- A concrete Lambda environment with no thrown error. -/
def lambdaEnv0 : LambdaEnv :=
  { serverInfo :=
      { inst := { id := "lambda-hitl-api-12345678", type := "lambda",
                  availability_zone := "us-east-1a", region := "us-east-1" }
        timestamp := "2025-01-25T14:30:00Z" }
    nowIso := "2025-01-25T14:30:00Z"
    randA := 0, randB := 0, randC := 0
    crash := none }

/-- C10, refuting instance: a decision POST with an *empty* body — which is
not valid JSON (`jsonParse0 "" ` throws) — does **not** get 400: the
source substitutes `"{}"` for every falsy body (the `||` default,
index.ts line 218), `"{}"` parses, and the handler answers 200. -/
theorem C10_counterexample :
    jsonParse0 "" = Except.error "Unexpected end of JSON input" ∧
    (handler jsonParse0 lambdaEnv0 "req-1"
      { path := "/api/applications/APP-1/decision", httpMethod := "POST",
        body := some "" }).statusCode = 200 :=
  ⟨rfl, rfl⟩

/-- C10 witness: at a concrete event, an OPTIONS preflight (to any path)
receives 204 and a malformed decision POST receives 400. -/
theorem C10_handler_contract_witness :
    (handler (fun _ => Except.error "Unexpected end of JSON input")
      lambdaEnv0 "req-1"
      { path := "/nope", httpMethod := "OPTIONS", body := none }).statusCode
      = 204 ∧
    handler (fun _ => Except.error "Unexpected end of JSON input")
      lambdaEnv0 "req-1"
      { path := "/api/applications/APP-1/decision", httpMethod := "POST",
        body := some "not json" } =
      createResponse 400
        (.errorResp "Invalid request body" "Unexpected end of JSON input") [] := by
  constructor
  · exact ((C10_handler_contract _ lambdaEnv0 "req-1"
      { path := "/nope", httpMethod := "OPTIONS", body := none }).2.2.1
        rfl rfl).2
  · exact (C10_handler_contract _ lambdaEnv0 "req-1"
      { path := "/api/applications/APP-1/decision", httpMethod := "POST",
        body := some "not json" }).2.2.2.2.2.2.1
      "Unexpected end of JSON input" rfl (by decide) (by decide) rfl

end DeployStaticFrontend
